import Mathlib

/-!
Verification development for the Hotel Last Resort reporting application
(`app-groupL/app.py`).  The application is a set of Flask routes, each of
which runs fixed SQLite statements through `query_db` and derives a few
aggregate statistics in Python before rendering a template.

The embedding below translates, table by table and route by route, the SQL
statements and the Python aggregation code into pure Lean functions over an
explicit `Database` value (lists of rows).  Database effects are captured by
`DBOutcome`: a run of `query_db` either fails while opening the connection
(`sqlite3.connect` raises before the `try` block), is caught by the
`except sqlite3.Error` branch during execution, or succeeds against a
concrete `Database`.
-/

namespace HotelLastResort

/-! ## SQLite value-level helpers

The queries apply `date(x)`, `julianday(x)`, `strftime(fmt, x)` and
`CAST(s AS INTEGER)` to datetime columns.  A `DateTime` records the
observations the four functions can make of a stored datetime value:
`ymd` encodes the `date(x)` string `YYYY-MM-DD` as the number `YYYYMMDD`
(lexicographic order on well-formed date strings coincides with numeric
order on this encoding, which is what `ORDER BY day` compares), `jd` is the
`julianday(x)` real, and `year`/`month` feed `strftime`. -/

structure DateTime where
  ymd : Nat
  jd : ℚ
  year : Nat
  month : Nat
deriving DecidableEq

/-- SQLite `date(x)`, as the order-preserving numeric encoding of the
`YYYY-MM-DD` result string. -/
def date (dt : DateTime) : Nat := dt.ymd

/-- SQLite `julianday(x)`. -/
def julianday (dt : DateTime) : ℚ := dt.jd

/-- Left-pad the decimal representation of `n` with zeros to width `w`,
as SQLite does for `%Y` (width 4) and `%m` (width 2). -/
def padNum (w : Nat) (n : Nat) : String :=
  let s := toString n
  String.mk (List.replicate (w - s.length) '0') ++ s

/-- Interpreter for the `strftime` format substitutions the application
uses.  Following the SQLite documentation: `%%` emits a literal `%`,
`%Y` the zero-padded year, `%m` the zero-padded month; any other character
is copied verbatim. -/
def strftimeAux (dt : DateTime) : List Char → String
  | [] => ""
  | '%' :: '%' :: rest => "%" ++ strftimeAux dt rest
  | '%' :: 'Y' :: rest => padNum 4 dt.year ++ strftimeAux dt rest
  | '%' :: 'm' :: rest => padNum 2 dt.month ++ strftimeAux dt rest
  | c :: rest => String.mk [c] ++ strftimeAux dt rest

/-- SQLite `strftime(fmt, x)`.  Note that `query_db` passes the SQL text of
`app.py` to `cursor.execute` verbatim (no Python `%`-formatting happens), so
the format strings reaching SQLite in the revenue query are the doubled
`'%%Y'` and `'%%m'` exactly as they appear in the source. -/
def strftime (fmt : String) (dt : DateTime) : String :=
  strftimeAux dt fmt.data

/-- Decimal digits accumulated left to right; stops at the first
non-digit. -/
def castDigits : List Char → Nat → Nat
  | [], acc => acc
  | c :: cs, acc => if c.isDigit then castDigits cs (acc * 10 + (c.toNat - 48)) else acc

/-- SQLite `CAST(s AS INTEGER)`: the longest integer prefix of the text,
and `0` when the text does not start with an (optionally signed) digit. -/
def castToInt (s : String) : Int :=
  match s.data with
  | '-' :: c :: cs => if c.isDigit then -(castDigits (c :: cs) 0 : Int) else 0
  | '+' :: c :: cs => if c.isDigit then (castDigits (c :: cs) 0 : Int) else 0
  | cs => (castDigits cs 0 : Int)

/-! ## Schema row types

One structure per table, with the columns the queries in `app.py` touch. -/

structure BuildingRow where
  buildingId : Nat
  buildingName : String
deriving DecidableEq

structure RoomTypeRow where
  roomTypeId : Nat
  roomType : String
deriving DecidableEq

structure BedTypeRow where
  bedTypeId : Nat
  bedType : String
deriving DecidableEq

structure RoomStatusRow where
  roomStatusId : Nat
  status : String
deriving DecidableEq

structure RoomRow where
  roomId : Nat
  roomNumber : Nat
  buildingId : Nat
  roomTypeId : Nat
  bedTypeId : Option Nat
  roomStatusId : Nat
  squareFootage : ℚ
  hasPaidBar : Int
deriving DecidableEq

structure MeetingSpaceRow where
  roomId : Nat
  spaceType : String
  capacity : Nat
  hasProjector : Int
  hasWhiteboard : Int
  hasPaidBar : Int
deriving DecidableEq

structure ReservationRow where
  reservationId : Nat
  startDateTime : DateTime
  endDateTime : DateTime
deriving DecidableEq

structure ReservationRoomRow where
  reservationId : Nat
  roomId : Nat
deriving DecidableEq

structure CustomerRow where
  customerId : Nat
  lastName : String
  firstName : String
deriving DecidableEq

structure BillingRow where
  customerId : Nat
  totalAmount : ℚ
deriving DecidableEq

structure TransactionRow where
  transactionDate : DateTime
  amount : ℚ
deriving DecidableEq

structure StaffRow where
  staffId : Nat
  firstName : String
  lastName : String
  email : String
  phone : String
  role : String
  department : String
  hireDate : String
  isActive : Int
deriving DecidableEq

structure StaffCardAssignmentRow where
  staffcardId : Nat
  staffId : Nat
deriving DecidableEq

structure ReadersRow where
  readersId : Nat
  location : String
deriving DecidableEq

structure ReadingInfoRow where
  staffcardId : Nat
  readerID : Nat
deriving DecidableEq

structure CustomerRequestRow where
  depositStatus : String
  resolved : String
deriving DecidableEq

structure EventRow where
  eventId : Nat
deriving DecidableEq

structure EventReservationRow where
  eventId : Nat
  reservationId : Nat
deriving DecidableEq

/-- The relational database `hotel_last_resort.db`, as lists of rows. -/
structure Database where
  building : List BuildingRow
  room : List RoomRow
  room_type : List RoomTypeRow
  bed_type : List BedTypeRow
  room_status : List RoomStatusRow
  meeting_space : List MeetingSpaceRow
  reservation : List ReservationRow
  reservation_room : List ReservationRoomRow
  customer : List CustomerRow
  billing : List BillingRow
  transaction : List TransactionRow
  staff : List StaffRow
  staff_card_assignment : List StaffCardAssignmentRow
  readers : List ReadersRow
  reading_info : List ReadingInfoRow
  customer_requests : List CustomerRequestRow
  event : List EventRow
  event_reservation : List EventReservationRow
deriving DecidableEq

/-- The database with every table empty. -/
def emptyDb : Database :=
  ⟨[], [], [], [], [], [], [], [], [], [], [], [], [], [], [], [], [], []⟩

/-! ## The `query_db` helper and its failure modes -/

/-- How one request's interaction with SQLite can go.  `connectError` is
`sqlite3.connect` raising (e.g. `unable to open database file`) — that call
sits on the line before `query_db`'s `try` block.  `connNone` is the
defensive `if conn is None` branch.  `execError` is `cursor.execute` or
`cursor.fetchall` raising `sqlite3.Error`.  `ok db` is a successful run
against the concrete data `db`. -/
inductive DBOutcome where
  | connectError : DBOutcome
  | connNone : DBOutcome
  | execError : DBOutcome
  | ok : Database → DBOutcome

/-- An exception escaping `query_db` into the route (and from there into
Flask's `handle_error`). -/
inductive DBExn where
  | connectFailed : DBExn
deriving DecidableEq

/-- The `query_db(query, args)` helper with the default `one=False`: a
connection-open failure propagates as an exception; the `conn is None`
branch and a caught `sqlite3.Error` both yield `[]`; on success the rows
are the query `q` evaluated on the database. -/
def query_db {ρ : Type} (out : DBOutcome) (q : Database → List ρ) :
    Except DBExn (List ρ) :=
  match out with
  | .connectError => .error .connectFailed
  | .connNone => .ok []
  | .execError => .ok []
  | .ok db => .ok (q db)

/-- The `query_db(query, args, one=True)` variant: `dict_results[0] if
dict_results else None` on success, `None` on a caught execution error. -/
def query_db_one {ρ : Type} (out : DBOutcome) (q : Database → List ρ) :
    Except DBExn (Option ρ) :=
  match out with
  | .connectError => .error .connectFailed
  | .connNone => .ok none
  | .execError => .ok none
  | .ok db => .ok (q db).head?

/-! ## Generic relational helpers -/

/-- Distinct values of `key` over `rows`: the grouping keys of a
`GROUP BY`, one per group. -/
def groupKeys {ρ κ : Type} [DecidableEq κ] (rows : List ρ) (key : ρ → κ) : List κ :=
  (rows.map key).dedup

/-- SQL `LEFT JOIN` on one left row: the matching right rows, or a single
null-extended row when there is no match. -/
def leftJoinOpt {β : Type} (ms : List β) : List (Option β) :=
  if ms.isEmpty then [none] else ms.map some

/-! ## Result-row types, one per SELECT list -/

/-- Row of the revenue-by-customer query (`/account` and
`/employee/customer_cards`). -/
structure BillingTotalsRow where
  customerId : Nat
  last_name : String
  first_name : String
  bills : Nat
  total_billed : ℚ
deriving DecidableEq

/-- Row of the available-sleeping-rooms query (`/guest_rooms`). -/
structure GuestRoomRow where
  roomId : Nat
  roomNumber : Nat
  buildingName : String
  roomType : String
  bedType : Option String
  squareFootage : ℚ
  hasPaidBar : Int
  room_status : String
deriving DecidableEq

/-- Row of the meeting-spaces-with-amenities query (`/meeting_spaces`). -/
structure MeetingSpaceInfoRow where
  roomId : Nat
  roomNumber : Nat
  buildingName : String
  spaceType : String
  capacity : Nat
  hasProjector : Int
  hasWhiteboard : Int
  hasPaidBar : Int
deriving DecidableEq

/-- Row of the reservations-per-day query (`/my_reservations` and
`/employee/reservations`). -/
structure DayCountRow where
  day : Nat
  num_reservations : Nat
deriving DecidableEq

/-- Row of the two type-dropdown queries (`/book`). -/
structure TypeCategoryRow where
  roomType : String
  type_category : String
deriving DecidableEq

/-- Row of the swipes-by-department-and-location query
(`/card_management`). -/
structure StaffSwipesRow where
  department : String
  location : String
  staff_swipes : Nat
deriving DecidableEq

/-- Row of the open-requests-by-deposit-status query
(`/employee/rooms`). -/
structure OpenRequestsRow where
  depositStatus : String
  open_requests : Nat
deriving DecidableEq

/-- Row of the average-stay-length-by-room-type query
(`/employee/rooms`). -/
structure RoomTypeStatsRow where
  roomType : String
  avg_nights : ℚ
  num_room_bookings : Nat
deriving DecidableEq

/-- Row of the meeting-space-events query (`/employee/rooms`). -/
structure SpaceEventsRow where
  spaceType : String
  events_count : Nat
deriving DecidableEq

/-- Row of the room-counts-by-building-and-status query
(`/employee/room_list`). -/
structure RoomCountRow where
  buildingName : String
  room_status : String
  num_rooms : Nat
deriving DecidableEq

/-- Row of the monthly-revenue query (`/employee/revenue`). -/
structure RevenueRow where
  yr : Int
  mo : Int
  total_revenue : ℚ
  num_tx : Nat
deriving DecidableEq

/-- Row of the rooms-never-reserved query
(`/employee/rooms_never_reserved`). -/
structure NeverReservedRow where
  buildingName : String
  roomNumber : Nat
deriving DecidableEq

/-! ## The SQL statements as functions on the database -/

/-- Query 5, shared verbatim by `/account` and `/employee/customer_cards`:
`billing JOIN customer ON customerId`, grouped by
`(customerId, lastName, firstName)` with `COUNT(*)` and
`SUM(totalAmount)`.  The `ORDER BY total_billed DESC` clause only arranges
the rows and is not modelled. -/
def revenue_by_customer_query (db : Database) : List BillingTotalsRow :=
  let joined := db.billing.flatMap fun b =>
    (db.customer.filter fun c => c.customerId = b.customerId).map fun c => (b, c)
  (groupKeys joined fun p => (p.2.customerId, p.2.lastName, p.2.firstName)).map fun k =>
    let grp := joined.filter fun p => (p.2.customerId, p.2.lastName, p.2.firstName) = k
    ⟨k.1, k.2.1, k.2.2, grp.length, (grp.map fun p => p.1.totalAmount).sum⟩

/-- FROM/JOIN part of the `/guest_rooms` query: room joined with building,
room_type, room_status, and left-joined with bed_type. -/
def guest_rooms_join (db : Database) :
    List (RoomRow × BuildingRow × RoomTypeRow × Option BedTypeRow × RoomStatusRow) :=
  db.room.flatMap fun rm =>
    (db.building.filter fun b => b.buildingId = rm.buildingId).flatMap fun b =>
      (db.room_type.filter fun rt => rt.roomTypeId = rm.roomTypeId).flatMap fun rt =>
        (leftJoinOpt (db.bed_type.filter fun bt => some bt.bedTypeId = rm.bedTypeId)).flatMap fun bt =>
          (db.room_status.filter fun rs => rs.roomStatusId = rm.roomStatusId).map fun rs =>
            (rm, b, rt, bt, rs)

/-- The `/guest_rooms` query: the join above, restricted by the WHERE
clause.  `LEFT JOIN meeting_space … WHERE ms.roomId IS NULL` is the
anti-join keeping rooms with no meeting_space row, combined with
`rs.status = 'available'`. -/
def guest_rooms_query (db : Database) : List GuestRoomRow :=
  ((guest_rooms_join db).filter fun p =>
      (db.meeting_space.filter fun ms => ms.roomId = p.1.roomId).isEmpty
        ∧ p.2.2.2.2.status = "available").map
    fun p =>
      ⟨p.1.roomId, p.1.roomNumber, p.2.1.buildingName, p.2.2.1.roomType,
        (p.2.2.2.1).map fun bt => bt.bedType, p.1.squareFootage, p.1.hasPaidBar,
        p.2.2.2.2.status⟩

/-- The `/meeting_spaces` query: meeting_space joined with room and
building. -/
def meeting_spaces_query (db : Database) : List MeetingSpaceInfoRow :=
  db.meeting_space.flatMap fun ms =>
    (db.room.filter fun rm => rm.roomId = ms.roomId).flatMap fun rm =>
      (db.building.filter fun b => b.buildingId = rm.buildingId).map fun b =>
        ⟨ms.roomId, rm.roomNumber, b.buildingName, ms.spaceType, ms.capacity,
          ms.hasProjector, ms.hasWhiteboard, ms.hasPaidBar⟩

/-- Query 1's GROUP BY, shared by `/my_reservations` and
`/employee/reservations`: one row per distinct `date(startDateTime)` with
the number of reservations checked in that day. -/
def reservations_per_day (db : Database) : List DayCountRow :=
  (groupKeys db.reservation fun r => date r.startDateTime).map fun d =>
    ⟨d, (db.reservation.filter fun r => date r.startDateTime = d).length⟩

/-- Comparison realising `ORDER BY day DESC`. -/
def dayGe (a b : DayCountRow) : Prop := b.day ≤ a.day

instance : DecidableRel dayGe := fun a b => inferInstanceAs (Decidable (b.day ≤ a.day))

instance : IsTotal DayCountRow dayGe := ⟨fun a b => le_total b.day a.day⟩

instance : IsTrans DayCountRow dayGe := ⟨fun _ _ _ h h2 => le_trans h2 h⟩

/-- The `/my_reservations` query: the per-day counts with
`ORDER BY day DESC LIMIT 10`. -/
def my_reservations_query (db : Database) : List DayCountRow :=
  (List.insertionSort dayGe (reservations_per_day db)).take 10

/-- The `/employee/reservations` query: the per-day counts for every day
(`ORDER BY day` only arranges the rows and is not modelled). -/
def employee_reservations_query (db : Database) : List DayCountRow :=
  reservations_per_day db

/-- First `/book` query: `SELECT DISTINCT rt.roomType, 'room'`.  The
category column is constant, so DISTINCT over the pair is dedup over the
type name. -/
def book_room_types_query (db : Database) : List TypeCategoryRow :=
  (db.room_type.map fun rt => rt.roomType).dedup.map fun t => ⟨t, "room"⟩

/-- Second `/book` query: `SELECT DISTINCT ms.spaceType, 'meeting'`. -/
def book_meeting_types_query (db : Database) : List TypeCategoryRow :=
  (db.meeting_space.map fun ms => ms.spaceType).dedup.map fun t => ⟨t, "meeting"⟩

/-- The `/staff_roster` query: the staff table (the SELECT list projects
exactly the modelled columns; `ORDER BY` is presentation only). -/
def staff_roster_query (db : Database) : List StaffRow :=
  db.staff

/-- FROM/JOIN part of query 8 (`/card_management`): reading_info joined
with staff_card_assignment, staff and readers. -/
def card_swipes_join (db : Database) :
    List (ReadingInfoRow × StaffCardAssignmentRow × StaffRow × ReadersRow) :=
  db.reading_info.flatMap fun ri =>
    (db.staff_card_assignment.filter fun sca => sca.staffcardId = ri.staffcardId).flatMap fun sca =>
      (db.staff.filter fun s => s.staffId = sca.staffId).flatMap fun s =>
        (db.readers.filter fun rd => rd.readersId = ri.readerID).map fun rd =>
          (ri, sca, s, rd)

/-- Query 8 (`/card_management`): swipes counted per
`(department, location)` group. -/
def card_management_query (db : Database) : List StaffSwipesRow :=
  (groupKeys (card_swipes_join db) fun p => (p.2.2.1.department, p.2.2.2.location)).map fun k =>
    ⟨k.1, k.2,
      ((card_swipes_join db).filter fun p =>
        (p.2.2.1.department, p.2.2.2.location) = k).length⟩

/-- WHERE part of query 7 (`/employee/rooms`): unresolved customer
requests. -/
def open_requests (db : Database) : List CustomerRequestRow :=
  db.customer_requests.filter fun cr => cr.resolved = "N"

/-- Query 7 (`/employee/rooms`): open requests counted per deposit
status. -/
def forum_posts_query (db : Database) : List OpenRequestsRow :=
  (groupKeys (open_requests db) fun cr => cr.depositStatus).map fun ds =>
    ⟨ds, ((open_requests db).filter fun cr => cr.depositStatus = ds).length⟩

/-- FROM/JOIN part of query 3 (`/employee/rooms`): room_type joined with
room, reservation_room and reservation; each join row keeps the room-type
name and the stay length `julianday(end) - julianday(start)`. -/
def stay_join (db : Database) : List (String × ℚ) :=
  db.room_type.flatMap fun rt =>
    (db.room.filter fun rm => rm.roomTypeId = rt.roomTypeId).flatMap fun rm =>
      (db.reservation_room.filter fun rr => rr.roomId = rm.roomId).flatMap fun rr =>
        (db.reservation.filter fun r => r.reservationId = rr.reservationId).map fun r =>
          (rt.roomType, julianday r.endDateTime - julianday r.startDateTime)

/-- The stay lengths of all join rows of room type `t`. -/
def stays (db : Database) (t : String) : List ℚ :=
  ((stay_join db).filter fun p => p.1 = t).map Prod.snd

/-- Query 3 (`/employee/rooms`): `AVG` of the stay length and `COUNT(*)`
per room type, over the groups of the inner join. -/
def room_types_query (db : Database) : List RoomTypeStatsRow :=
  (groupKeys (stay_join db) Prod.fst).map fun t =>
    ⟨t, (stays db t).sum / ((stays db t).length : ℚ), (stays db t).length⟩

/-- Row of the FROM part of query 6 (`/employee/rooms`): meeting_space
left-joined with reservation_room, event_reservation and event. -/
structure EventJoinRow where
  spaceType : String
  rr : Option ReservationRoomRow
  er : Option EventReservationRow
  ev : Option EventRow
deriving DecidableEq

/-- FROM/JOIN part of query 6: the chain of LEFT JOINs (a null key on the
left side matches no right row, so the null row is extended with nulls). -/
def event_join (db : Database) : List EventJoinRow :=
  db.meeting_space.flatMap fun ms =>
    (leftJoinOpt (db.reservation_room.filter fun rr => rr.roomId = ms.roomId)).flatMap fun rrO =>
      (leftJoinOpt (match rrO with
        | none => []
        | some rr => db.event_reservation.filter fun er =>
            er.reservationId = rr.reservationId)).flatMap fun erO =>
        (leftJoinOpt (match erO with
          | none => []
          | some er => db.event.filter fun e => e.eventId = er.eventId)).map fun evO =>
          ⟨ms.spaceType, rrO, erO, evO⟩

/-- Query 6 (`/employee/rooms`): `COUNT(DISTINCT er.eventId)` per space
type; `COUNT(DISTINCT …)` ignores the NULLs produced by the left joins. -/
def meeting_space_events_query (db : Database) : List SpaceEventsRow :=
  (groupKeys (event_join db) fun j => j.spaceType).map fun st =>
    ⟨st,
      (((event_join db).filter fun j => j.spaceType = st).filterMap
        (fun j => j.er.map fun er => er.eventId)).dedup.length⟩

/-- FROM/JOIN part of query 2 (`/employee/room_list`): building joined
with room and room_status. -/
def room_list_join (db : Database) :
    List (BuildingRow × RoomRow × RoomStatusRow) :=
  db.building.flatMap fun b =>
    (db.room.filter fun rm => rm.buildingId = b.buildingId).flatMap fun rm =>
      (db.room_status.filter fun rs => rs.roomStatusId = rm.roomStatusId).map fun rs =>
        (b, rm, rs)

/-- Query 2 (`/employee/room_list`): `COUNT(*)` per
`(buildingName, status)` group. -/
def room_list_query (db : Database) : List RoomCountRow :=
  (groupKeys (room_list_join db) fun p => (p.1.buildingName, p.2.2.status)).map fun k =>
    ⟨k.1, k.2,
      ((room_list_join db).filter fun p =>
        (p.1.buildingName, p.2.2.status) = k).length⟩

/-- Each transaction with its GROUP BY key of query 4: the two strings
`strftime('%%Y', transactionDate)` and `strftime('%%m', transactionDate)`,
with the doubled percent signs exactly as in the SQL text of `app.py`. -/
def revenue_keyed (db : Database) : List ((String × String) × TransactionRow) :=
  db.transaction.map fun t =>
    ((strftime ("%%Y") t.transactionDate, strftime ("%%m") t.transactionDate), t)

/-- Query 4 (`/employee/revenue`) as its SQL text reads: grouped by the
two strftime strings, with `yr`/`mo` the CASTs of those strings and
`SUM(amount)`/`COUNT(*)` per group.  (Against a real SQLite the statement
does not even parse, because `transaction` is an unquoted keyword, so
`query_db` catches the error and the route always receives `[]`.) -/
def employee_revenue_query (db : Database) : List RevenueRow :=
  (groupKeys (revenue_keyed db) Prod.fst).map fun k =>
    let grp := ((revenue_keyed db).filter fun p => p.1 = k).map Prod.snd
    ⟨castToInt k.1, castToInt k.2, (grp.map fun t => t.amount).sum, grp.length⟩

/-- FROM/WHERE part of query 9 (`/employee/rooms_never_reserved`):
building joined with room, anti-joined against reservation_room
(`LEFT JOIN … WHERE rr.roomId IS NULL`). -/
def never_reserved_join (db : Database) : List (BuildingRow × RoomRow) :=
  (db.building.flatMap fun b =>
    (db.room.filter fun rm => rm.buildingId = b.buildingId).map fun rm => (b, rm)).filter
    fun p => (db.reservation_room.filter fun rr => rr.roomId = p.2.roomId).isEmpty

/-- Query 9 (`/employee/rooms_never_reserved`). -/
def rooms_never_reserved_query (db : Database) : List NeverReservedRow :=
  (never_reserved_join db).map fun p => ⟨p.1.buildingName, p.2.roomNumber⟩

/-! ## Pages: the template context each route renders

One structure per route, holding exactly the variables passed to
`render_template`, and one builder per route mirroring the Python
statistics code.  Python's `<expr> if <rows> else 0` guards are kept as
`if rows.isEmpty then 0 else <expr>`. -/

structure AccountPage where
  reservations : List BillingTotalsRow
deriving DecidableEq

def account_page (reservations : List BillingTotalsRow) : AccountPage :=
  ⟨reservations⟩

structure GuestRoomsPage where
  available_rooms : List GuestRoomRow
  total_rooms : Nat
deriving DecidableEq

def guest_rooms_page (available_rooms : List GuestRoomRow) : GuestRoomsPage :=
  ⟨available_rooms, if available_rooms.isEmpty then 0 else available_rooms.length⟩

structure MeetingSpacesPage where
  meeting_spaces : List MeetingSpaceInfoRow
  total_spaces : Nat
deriving DecidableEq

def meeting_spaces_page_ctx (meeting_spaces : List MeetingSpaceInfoRow) : MeetingSpacesPage :=
  ⟨meeting_spaces, if meeting_spaces.isEmpty then 0 else meeting_spaces.length⟩

structure MyReservationsPage where
  reservations : List DayCountRow
  total_reservations : Nat
deriving DecidableEq

def my_reservations_page (reservations : List DayCountRow) : MyReservationsPage :=
  ⟨reservations, if reservations.isEmpty then 0 else reservations.length⟩

structure BookPage where
  all_types : List TypeCategoryRow
deriving DecidableEq

/-- `all_types = room_types + meeting_space_types`. -/
def book_page (room_types meeting_space_types : List TypeCategoryRow) : BookPage :=
  ⟨room_types ++ meeting_space_types⟩

structure StaffRosterPage where
  staff : List StaffRow
  total_staff : Nat
  active_staff : Nat
deriving DecidableEq

/-- Staff statistics: `active_staff` counts the rows whose `isActive`
value is truthy in Python, i.e. a non-zero integer. -/
def staff_roster_page (staff : List StaffRow) : StaffRosterPage :=
  ⟨staff,
    if staff.isEmpty then 0 else staff.length,
    if staff.isEmpty then 0 else (staff.filter fun s => s.isActive ≠ 0).length⟩

structure CardManagementPage where
  staff_cards : List StaffSwipesRow
  total_swipes : Nat
  departments : Nat
  locations : Nat
deriving DecidableEq

/-- Card statistics: `departments`/`locations` are the distinct truthy
(non-empty) department and location strings. -/
def card_management_page (staff_cards : List StaffSwipesRow) : CardManagementPage :=
  ⟨staff_cards,
    if staff_cards.isEmpty then 0 else (staff_cards.map fun s => s.staff_swipes).sum,
    if staff_cards.isEmpty then 0
      else (((staff_cards.map fun s => s.department).filter fun d => d ≠ "").dedup).length,
    if staff_cards.isEmpty then 0
      else (((staff_cards.map fun s => s.location).filter fun l => l ≠ "").dedup).length⟩

structure EmployeeRoomsPage where
  forum_posts : List OpenRequestsRow
  room_types : List RoomTypeStatsRow
  meeting_spaces_events : List SpaceEventsRow
  total_requests : Nat
  total_bookings : Nat
  total_events : Nat
deriving DecidableEq

def employee_rooms_page (forum_posts : List OpenRequestsRow)
    (room_types : List RoomTypeStatsRow)
    (meeting_spaces_events : List SpaceEventsRow) : EmployeeRoomsPage :=
  ⟨forum_posts, room_types, meeting_spaces_events,
    if forum_posts.isEmpty then 0 else (forum_posts.map fun f => f.open_requests).sum,
    if room_types.isEmpty then 0 else (room_types.map fun r => r.num_room_bookings).sum,
    if meeting_spaces_events.isEmpty then 0
      else (meeting_spaces_events.map fun m => m.events_count).sum⟩

structure EmployeeCustomerCardsPage where
  customer_cards : List BillingTotalsRow
  total_customers : Nat
  total_revenue : ℚ
deriving DecidableEq

def employee_customer_cards_page (customer_cards : List BillingTotalsRow) :
    EmployeeCustomerCardsPage :=
  ⟨customer_cards,
    if customer_cards.isEmpty then 0 else customer_cards.length,
    if customer_cards.isEmpty then 0 else (customer_cards.map fun c => c.total_billed).sum⟩

structure EmployeeRoomListPage where
  rooms : List RoomCountRow
  total_rooms : Nat
  available_rooms : Nat
deriving DecidableEq

def employee_room_list_page (rooms : List RoomCountRow) : EmployeeRoomListPage :=
  ⟨rooms,
    if rooms.isEmpty then 0 else (rooms.map fun r => r.num_rooms).sum,
    if rooms.isEmpty then 0
      else ((rooms.filter fun r => r.room_status = "available").map fun r => r.num_rooms).sum⟩

structure EmployeeReservationsPage where
  reservations : List DayCountRow
  total_reservations : Nat
  total_days : Nat
  avg_per_day : ℚ
deriving DecidableEq

/-- `avg_per_day = total_reservations / total_days if total_days > 0 else 0`. -/
def employee_reservations_page (reservations : List DayCountRow) :
    EmployeeReservationsPage :=
  let total_reservations : Nat :=
    if reservations.isEmpty then 0 else (reservations.map fun r => r.num_reservations).sum
  let total_days : Nat := if reservations.isEmpty then 0 else reservations.length
  ⟨reservations, total_reservations, total_days,
    if 0 < total_days then (total_reservations : ℚ) / (total_days : ℚ) else 0⟩

structure EmployeeRevenuePage where
  revenue : List RevenueRow
  total_revenue : ℚ
  total_transactions : Nat
  months_tracked : Nat
deriving DecidableEq

def employee_revenue_page (revenue : List RevenueRow) : EmployeeRevenuePage :=
  ⟨revenue,
    if revenue.isEmpty then 0 else (revenue.map fun r => r.total_revenue).sum,
    if revenue.isEmpty then 0 else (revenue.map fun r => r.num_tx).sum,
    if revenue.isEmpty then 0 else revenue.length⟩

structure RoomsNeverReservedPage where
  rooms : List NeverReservedRow
  total_unused : Nat
deriving DecidableEq

def rooms_never_reserved_page (rooms : List NeverReservedRow) : RoomsNeverReservedPage :=
  ⟨rooms, if rooms.isEmpty then 0 else rooms.length⟩

/-! ## Routes

Each database-backed route, as the composition of `query_db` runs and the
page builder.  The six static routes (`home`, `signup`, `profile`,
`confirmation`, `management_login`, `employee_login`) run no query and
render a constant template, so they are not modelled. -/

def account (out : DBOutcome) : Except DBExn AccountPage := do
  let reservations ← query_db out revenue_by_customer_query
  pure (account_page reservations)

def guest_rooms (out : DBOutcome) : Except DBExn GuestRoomsPage := do
  let available_rooms ← query_db out guest_rooms_query
  pure (guest_rooms_page available_rooms)

def meeting_spaces_route (out : DBOutcome) : Except DBExn MeetingSpacesPage := do
  let meeting_spaces ← query_db out meeting_spaces_query
  pure (meeting_spaces_page_ctx meeting_spaces)

def my_reservations (out : DBOutcome) : Except DBExn MyReservationsPage := do
  let reservations ← query_db out my_reservations_query
  pure (my_reservations_page reservations)

def book (out : DBOutcome) : Except DBExn BookPage := do
  let room_types ← query_db out book_room_types_query
  let meeting_space_types ← query_db out book_meeting_types_query
  pure (book_page room_types meeting_space_types)

def staff_roster (out : DBOutcome) : Except DBExn StaffRosterPage := do
  let staff ← query_db out staff_roster_query
  pure (staff_roster_page staff)

def card_management (out : DBOutcome) : Except DBExn CardManagementPage := do
  let staff_cards ← query_db out card_management_query
  pure (card_management_page staff_cards)

def employee_rooms (out : DBOutcome) : Except DBExn EmployeeRoomsPage := do
  let forum_posts ← query_db out forum_posts_query
  let room_types ← query_db out room_types_query
  let meeting_spaces_events ← query_db out meeting_space_events_query
  pure (employee_rooms_page forum_posts room_types meeting_spaces_events)

def employee_customer_cards (out : DBOutcome) : Except DBExn EmployeeCustomerCardsPage := do
  let customer_cards ← query_db out revenue_by_customer_query
  pure (employee_customer_cards_page customer_cards)

def employee_room_list (out : DBOutcome) : Except DBExn EmployeeRoomListPage := do
  let rooms ← query_db out room_list_query
  pure (employee_room_list_page rooms)

def employee_reservations_route (out : DBOutcome) : Except DBExn EmployeeReservationsPage := do
  let reservations ← query_db out employee_reservations_query
  pure (employee_reservations_page reservations)

def employee_revenue (out : DBOutcome) : Except DBExn EmployeeRevenuePage := do
  let revenue ← query_db out employee_revenue_query
  pure (employee_revenue_page revenue)

def rooms_never_reserved (out : DBOutcome) : Except DBExn RoomsNeverReservedPage := do
  let rooms ← query_db out rooms_never_reserved_query
  pure (rooms_never_reserved_page rooms)

/-! ## The global error handler -/

/-- What the browser receives: either the route's own rendered page, or
`error.html` produced by the `@app.errorhandler(Exception)` handler
`handle_error` when an exception escapes the route. -/
inductive Rendered (π : Type) where
  | page : π → Rendered π
  | errorPage : Rendered π
deriving DecidableEq

/-- Flask dispatch: a value returned by the route renders the route's own
page; an escaping exception is caught by `handle_error` and renders the
generic error page. -/
def dispatch {π : Type} (r : Except DBExn π) : Rendered π :=
  match r with
  | .ok p => .page p
  | .error _ => .errorPage

/-! ## Concrete sample databases for evaluation -/

/-- A January 2024 transaction of amount 100. -/
def txJan : TransactionRow := ⟨⟨20240115, 2460325, 2024, 1⟩, 100⟩

/-- A February 2024 transaction of amount 50. -/
def txFeb : TransactionRow := ⟨⟨20240215, 2460356, 2024, 2⟩, 50⟩

/-- A database whose transaction table spans two distinct calendar
months. -/
def twoMonthDb : Database :=
  { emptyDb with transaction := [txJan, txFeb] }

/-- One room of type 1 with one three-day reservation. -/
def c4db : Database :=
  { emptyDb with
    room_type := [⟨1, "suite"⟩],
    room := [⟨1, 101, 1, 1, none, 1, 0, 0⟩],
    reservation_room := [⟨1, 1⟩],
    reservation := [⟨1, ⟨20240101, 100, 2024, 1⟩, ⟨20240104, 103, 2024, 1⟩⟩] }

def c5roomA : RoomRow := ⟨1, 101, 1, 1, none, 1, 0, 0⟩

def c5roomB : RoomRow := ⟨2, 102, 1, 1, none, 1, 0, 0⟩

/-- Two rooms in one building; only the first is ever reserved. -/
def c5db : Database :=
  { emptyDb with
    building := [⟨1, "Main"⟩],
    room := [c5roomA, c5roomB],
    reservation_room := [⟨1, 1⟩] }

/-- The scenario of the spec's example: one `room_status` row with status
`available` and two rooms referencing it, both in an existing building. -/
def c8db : Database :=
  { emptyDb with
    building := [⟨1, "Main"⟩],
    room := [⟨1, 101, 1, 1, none, 5, 0, 0⟩, ⟨2, 102, 1, 1, none, 5, 0, 0⟩],
    room_status := [⟨5, "available"⟩] }

/-- Two reservations checking in on two consecutive days. -/
def c9db : Database :=
  { emptyDb with
    reservation :=
      [⟨1, ⟨20240101, 100, 2024, 1⟩, ⟨20240102, 101, 2024, 1⟩⟩,
       ⟨2, ⟨20240102, 101, 2024, 1⟩, ⟨20240103, 102, 2024, 1⟩⟩] }

/-! ## Helper lemmas -/

/-- Python's `<sum> if <rows> else 0` guard is redundant: the sum over an
empty row list is already zero. -/
theorem if_isEmpty_sum {κ M : Type} [AddMonoid M] (l : List κ) (f : κ → M) :
    (if l.isEmpty then 0 else (l.map f).sum) = (l.map f).sum := by
  cases l <;> simp

/-- Same redundancy for `len(rows) if rows else 0`. -/
theorem if_isEmpty_length {κ : Type} (l : List κ) :
    (if l.isEmpty then 0 else l.length) = l.length := by
  cases l <;> simp

/-- Summing a nonnegative field over a filtered sublist cannot exceed the
sum over the whole list. -/
theorem sum_map_filter_le {κ : Type} (l : List κ) (p : κ → Prop) [DecidablePred p]
    (f : κ → ℕ) : ((l.filter p).map f).sum ≤ (l.map f).sum := by
  induction l with
  | nil => simp
  | cons a t ih =>
    rw [List.filter_cons]
    by_cases h : p a
    · rw [if_pos (by simpa using h)]
      simpa using Nat.add_le_add_left ih (f a)
    · rw [if_neg (by simpa using h)]
      simp only [List.map_cons, List.sum_cons]
      exact le_trans ih (Nat.le_add_left _ _)

/-- Flat-mapping every element to the empty list yields the empty list. -/
theorem flatMap_const_nil {α β : Type} (l : List α) :
    (l.flatMap fun _ => ([] : List β)) = [] := by
  induction l <;> simp_all

/-- A filter and its complement split the length of a list. -/
theorem length_filter_add {α : Type} (l : List α) (p : α → Prop) [DecidablePred p] :
    (l.filter p).length + (l.filter fun x => ¬p x).length = l.length := by
  induction l with
  | nil => simp
  | cons a t ih =>
    rw [List.filter_cons, List.filter_cons]
    by_cases h : p a
    · rw [if_pos (by simpa using h), if_neg (by simpa using h)]
      simp only [List.length_cons]
      omega
    · rw [if_neg (by simpa using h), if_pos (by simpa using h)]
      simp only [List.length_cons]
      omega

/-- Summing an indicator over a list counts the matching elements. -/
theorem sum_map_ite {α : Type} (l : List α) (p : α → Prop) [DecidablePred p] :
    (l.map fun x => if p x then 1 else 0).sum = (l.filter p).length := by
  induction l with
  | nil => simp
  | cons a t ih => by_cases h : p a <;> simp [List.filter_cons, h, ih, Nat.add_comm]

/-- Sums distribute over pointwise addition of the mapped functions. -/
theorem sum_map_add {α : Type} (l : List α) (f g : α → ℕ) :
    (l.map fun x => f x + g x).sum = (l.map f).sum + (l.map g).sum := by
  induction l with
  | nil => simp
  | cons a t ih => simp [ih]; omega

/-- Summing, over a duplicate-free list of keys covering a row list, the
number of rows at each key recovers the number of rows: the grouping of a
`GROUP BY` partitions the joined rows. -/
theorem sum_counts_of_nodup {ρ κ : Type} [DecidableEq κ] (key : ρ → κ) :
    ∀ (K : List κ) (rows : List ρ), K.Nodup → (∀ r ∈ rows, key r ∈ K) →
      (K.map fun k => (rows.filter fun r => key r = k).length).sum = rows.length := by
  intro K
  induction K with
  | nil =>
    intro rows _ hcov
    have hrows : rows = [] :=
      List.eq_nil_iff_forall_not_mem.2 fun r hr => by simpa using hcov r hr
    simp [hrows]
  | cons k K ih =>
    intro rows hnd hcov
    rcases List.nodup_cons.1 hnd with ⟨hk, hndK⟩
    have hmap : ∀ k2 ∈ K, (rows.filter fun r => key r = k2).length
        = ((rows.filter fun r => ¬key r = k).filter fun r => key r = k2).length := by
      intro k2 hk2
      have hkk : k2 ≠ k := fun he => hk (he ▸ hk2)
      rw [List.filter_filter]
      refine congrArg List.length (List.filter_congr ?_).symm
      intro r _
      by_cases h2 : key r = k2 <;> simp [h2, hkk]
    have hcov2 : ∀ r ∈ rows.filter fun r => ¬key r = k, key r ∈ K := by
      intro r hr
      rcases List.mem_filter.1 hr with ⟨hrows, hne⟩
      rcases List.mem_cons.1 (hcov r hrows) with heq | hmem
      · exact absurd heq (by simpa using hne)
      · exact hmem
    calc (((k :: K).map fun k2 => (rows.filter fun r => key r = k2).length).sum)
        = (rows.filter fun r => key r = k).length
            + (K.map fun k2 => (rows.filter fun r => key r = k2).length).sum := by simp
      _ = (rows.filter fun r => key r = k).length
            + (K.map fun k2 =>
                ((rows.filter fun r => ¬key r = k).filter fun r => key r = k2).length).sum := by
          rw [List.map_congr_left hmap]
      _ = (rows.filter fun r => key r = k).length
            + (rows.filter fun r => ¬key r = k).length := by
          rw [ih _ hndK hcov2]
      _ = rows.length := length_filter_add _ _

/-- The filtered form: summing the group sizes over the grouping keys
satisfying `P` counts the rows whose key satisfies `P`. -/
theorem sum_counts_filter {ρ κ : Type} [DecidableEq κ] (rows : List ρ) (key : ρ → κ)
    (P : κ → Prop) [DecidablePred P] :
    (((groupKeys rows key).filter fun k => P k).map
        fun k => (rows.filter fun r => key r = k).length).sum
      = (rows.filter fun r => P (key r)).length := by
  have hnd : ((groupKeys rows key).filter fun k => P k).Nodup :=
    (List.nodup_dedup _).filter _
  have hmap : ∀ k ∈ (groupKeys rows key).filter fun k => P k,
      (rows.filter fun r => key r = k).length
        = ((rows.filter fun r => P (key r)).filter fun r => key r = k).length := by
    intro k hk
    have hPk : P k := by simpa using (List.mem_filter.1 hk).2
    rw [List.filter_filter]
    refine congrArg List.length (List.filter_congr ?_).symm
    intro r _
    by_cases h2 : key r = k <;> simp [h2, hPk]
  rw [List.map_congr_left hmap]
  refine sum_counts_of_nodup key _ _ hnd ?_
  intro r hr
  rcases List.mem_filter.1 hr with ⟨hrows, hP⟩
  refine List.mem_filter.2 ⟨?_, hP⟩
  simp only [groupKeys, List.mem_dedup, List.mem_map]
  exact ⟨r, hrows, rfl⟩

/-! ## Claim theorems -/

/-- C1: the monthly revenue report is claimed to group the transaction
table by the year and the month of the timestamp, with distinct calendar
months yielding distinct rows.  Evaluating the embedded query (the SQL
text as `app.py` ships it) on a database with one January 2024 and one
February 2024 transaction instead produces a single row with `yr = 0` and
`mo = 0`: the doubled `'%%Y'`/`'%%m'` format strings make `strftime`
return the literal texts `%Y` and `%m` for every row, so all transactions
share one group key and the CASTs yield 0. -/
theorem spec_C1 :
    ((employee_revenue_query twoMonthDb).map fun r => (r.yr, r.mo, r.num_tx)) = [(0, 0, 2)]
      ∧ txJan.transactionDate.month ≠ txFeb.transactionDate.month := by
  decide

/-- C2 (amended): when every query execution errors (the caught
`sqlite3.Error` path), every database-backed route renders its own page
with empty collections and zero statistics. -/
theorem spec_C2 :
    dispatch (account DBOutcome.execError) = Rendered.page ⟨[]⟩
  ∧ dispatch (guest_rooms DBOutcome.execError) = Rendered.page ⟨[], 0⟩
  ∧ dispatch (meeting_spaces_route DBOutcome.execError) = Rendered.page ⟨[], 0⟩
  ∧ dispatch (my_reservations DBOutcome.execError) = Rendered.page ⟨[], 0⟩
  ∧ dispatch (book DBOutcome.execError) = Rendered.page ⟨[]⟩
  ∧ dispatch (staff_roster DBOutcome.execError) = Rendered.page ⟨[], 0, 0⟩
  ∧ dispatch (card_management DBOutcome.execError) = Rendered.page ⟨[], 0, 0, 0⟩
  ∧ dispatch (employee_rooms DBOutcome.execError) = Rendered.page ⟨[], [], [], 0, 0, 0⟩
  ∧ dispatch (employee_customer_cards DBOutcome.execError) = Rendered.page ⟨[], 0, 0⟩
  ∧ dispatch (employee_room_list DBOutcome.execError) = Rendered.page ⟨[], 0, 0⟩
  ∧ dispatch (employee_reservations_route DBOutcome.execError) = Rendered.page ⟨[], 0, 0, 0⟩
  ∧ dispatch (employee_revenue DBOutcome.execError) = Rendered.page ⟨[], 0, 0, 0⟩
  ∧ dispatch (rooms_never_reserved DBOutcome.execError) = Rendered.page ⟨[], 0⟩ := by
  decide

/-- C2 (counterexample): when the database is unreachable,
`sqlite3.connect` raises on the line before `query_db`'s `try` block, the
exception escapes to `handle_error`, and the `/account` route renders the
generic error page instead of its own page. -/
theorem spec_C2_counterexample :
    dispatch (account DBOutcome.connectError) = Rendered.errorPage
      ∧ dispatch (account DBOutcome.connectError) ≠ Rendered.page (account_page []) := by
  decide

/-- C3: a database error during query execution is caught inside
`query_db` and surfaces to the calling route as the empty row list (or as
the null single-row result under `one=True`); no exception is raised to
the caller on that path. -/
theorem spec_C3 {ρ : Type} (q : Database → List ρ) :
    query_db DBOutcome.execError q = Except.ok []
      ∧ query_db_one DBOutcome.execError q = Except.ok none :=
  ⟨rfl, rfl⟩

/-- C6: every derived total named by the claim equals the arithmetic sum
of the corresponding per-row field over the rows the route received. -/
theorem spec_C6 (db : Database) :
    (card_management_page (card_management_query db)).total_swipes
      = ((card_management_query db).map fun s => s.staff_swipes).sum
  ∧ (employee_rooms_page (forum_posts_query db) (room_types_query db)
      (meeting_space_events_query db)).total_requests
      = ((forum_posts_query db).map fun f => f.open_requests).sum
  ∧ (employee_rooms_page (forum_posts_query db) (room_types_query db)
      (meeting_space_events_query db)).total_bookings
      = ((room_types_query db).map fun r => r.num_room_bookings).sum
  ∧ (employee_rooms_page (forum_posts_query db) (room_types_query db)
      (meeting_space_events_query db)).total_events
      = ((meeting_space_events_query db).map fun m => m.events_count).sum
  ∧ (employee_customer_cards_page (revenue_by_customer_query db)).total_revenue
      = ((revenue_by_customer_query db).map fun c => c.total_billed).sum
  ∧ (employee_revenue_page (employee_revenue_query db)).total_revenue
      = ((employee_revenue_query db).map fun r => r.total_revenue).sum
  ∧ (employee_room_list_page (room_list_query db)).total_rooms
      = ((room_list_query db).map fun r => r.num_rooms).sum
  ∧ (employee_reservations_page (employee_reservations_query db)).total_reservations
      = ((employee_reservations_query db).map fun r => r.num_reservations).sum :=
  ⟨if_isEmpty_sum _ _, if_isEmpty_sum _ _, if_isEmpty_sum _ _, if_isEmpty_sum _ _,
   if_isEmpty_sum _ _, if_isEmpty_sum _ _, if_isEmpty_sum _ _, if_isEmpty_sum _ _⟩

/-- C7: when a report's underlying table is empty, every derived total of
that report — counts, sums and averages alike — is zero; in particular
`avg_per_day` falls back to `0` instead of dividing by zero. -/
theorem spec_C7 (db : Database) :
    (db.reservation = [] →
      (employee_reservations_page (employee_reservations_query db)).total_reservations = 0
        ∧ (employee_reservations_page (employee_reservations_query db)).total_days = 0
        ∧ (employee_reservations_page (employee_reservations_query db)).avg_per_day = 0
        ∧ (my_reservations_page (my_reservations_query db)).total_reservations = 0)
  ∧ (db.billing = [] →
      (employee_customer_cards_page (revenue_by_customer_query db)).total_customers = 0
        ∧ (employee_customer_cards_page (revenue_by_customer_query db)).total_revenue = 0
        ∧ (account_page (revenue_by_customer_query db)).reservations = [])
  ∧ (db.transaction = [] →
      (employee_revenue_page (employee_revenue_query db)).total_revenue = 0
        ∧ (employee_revenue_page (employee_revenue_query db)).total_transactions = 0
        ∧ (employee_revenue_page (employee_revenue_query db)).months_tracked = 0)
  ∧ (db.reading_info = [] →
      (card_management_page (card_management_query db)).total_swipes = 0
        ∧ (card_management_page (card_management_query db)).departments = 0
        ∧ (card_management_page (card_management_query db)).locations = 0)
  ∧ (db.room = [] →
      (employee_room_list_page (room_list_query db)).total_rooms = 0
        ∧ (employee_room_list_page (room_list_query db)).available_rooms = 0
        ∧ (guest_rooms_page (guest_rooms_query db)).total_rooms = 0
        ∧ (rooms_never_reserved_page (rooms_never_reserved_query db)).total_unused = 0)
  ∧ (db.staff = [] →
      (staff_roster_page (staff_roster_query db)).total_staff = 0
        ∧ (staff_roster_page (staff_roster_query db)).active_staff = 0)
  ∧ (db.customer_requests = [] →
      (employee_rooms_page (forum_posts_query db) (room_types_query db)
        (meeting_space_events_query db)).total_requests = 0)
  ∧ (db.reservation_room = [] →
      (employee_rooms_page (forum_posts_query db) (room_types_query db)
        (meeting_space_events_query db)).total_bookings = 0)
  ∧ (db.meeting_space = [] →
      (meeting_spaces_page_ctx (meeting_spaces_query db)).total_spaces = 0
        ∧ (employee_rooms_page (forum_posts_query db) (room_types_query db)
            (meeting_space_events_query db)).total_events = 0) := by
  refine ⟨fun h => ?_, fun h => ?_, fun h => ?_, fun h => ?_, fun h => ?_, fun h => ?_,
    fun h => ?_, fun h => ?_, fun h => ?_⟩
  all_goals
    simp [employee_reservations_page, my_reservations_page, employee_customer_cards_page,
      account_page, employee_revenue_page, card_management_page, employee_room_list_page,
      guest_rooms_page, rooms_never_reserved_page, staff_roster_page, employee_rooms_page,
      meeting_spaces_page_ctx, employee_reservations_query, my_reservations_query,
      reservations_per_day, revenue_by_customer_query, employee_revenue_query, revenue_keyed,
      card_management_query, card_swipes_join, room_list_query, room_list_join,
      guest_rooms_query, guest_rooms_join, rooms_never_reserved_query, never_reserved_join,
      staff_roster_query, forum_posts_query, open_requests, room_types_query, stay_join,
      meeting_spaces_query, meeting_space_events_query, event_join, groupKeys,
      List.insertionSort, flatMap_const_nil, h]

/-- C7 (witness): on the fully empty database the reservations report has
zero totals and a zero average. -/
theorem spec_C7_witness :
    (employee_reservations_page (employee_reservations_query emptyDb)).total_reservations = 0
      ∧ (employee_reservations_page (employee_reservations_query emptyDb)).avg_per_day = 0 :=
  ⟨((spec_C7 emptyDb).1 rfl).1, ((spec_C7 emptyDb).1 rfl).2.2.1⟩

/-- C10: the derived subtotal never exceeds the corresponding total:
`available_rooms ≤ total_rooms` in the room list report and
`active_staff ≤ total_staff` in the staff roster. -/
theorem spec_C10 (db : Database) :
    (employee_room_list_page (room_list_query db)).available_rooms
      ≤ (employee_room_list_page (room_list_query db)).total_rooms
  ∧ (staff_roster_page (staff_roster_query db)).active_staff
      ≤ (staff_roster_page (staff_roster_query db)).total_staff := by
  constructor
  · show (if (room_list_query db).isEmpty then 0
        else (((room_list_query db).filter fun r => r.room_status = "available").map
          fun r => r.num_rooms).sum)
      ≤ (if (room_list_query db).isEmpty then 0
        else ((room_list_query db).map fun r => r.num_rooms).sum)
    by_cases h : (room_list_query db).isEmpty
    · rw [if_pos h, if_pos h]
    · rw [if_neg h, if_neg h]
      exact sum_map_filter_le _ _ _
  · show (if (staff_roster_query db).isEmpty then 0
        else ((staff_roster_query db).filter fun s => s.isActive ≠ 0).length)
      ≤ (if (staff_roster_query db).isEmpty then 0 else (staff_roster_query db).length)
    by_cases h : (staff_roster_query db).isEmpty
    · rw [if_pos h, if_pos h]
    · rw [if_neg h, if_neg h]
      exact List.length_filter_le _ _

/-- C4: in the `/employee/rooms` report a room type with at least one
booking appears with `avg_nights` equal to the arithmetic mean of
`julianday(end) - julianday(start)` over all its reservation_room join
rows, and a room type with no booking contributes no result row at
all. -/
theorem spec_C4 (db : Database) (t : String) :
    (stays db t ≠ [] →
      ∃ row ∈ room_types_query db, row.roomType = t
        ∧ row.avg_nights = (stays db t).sum / ((stays db t).length : ℚ)
        ∧ row.num_room_bookings = (stays db t).length)
  ∧ (stays db t = [] → ∀ row ∈ room_types_query db, row.roomType ≠ t) := by
  constructor
  · intro hne
    have hfil : (stay_join db).filter (fun p => p.1 = t) ≠ [] := by
      intro hf
      exact hne (by simp [stays, hf])
    have ht : t ∈ groupKeys (stay_join db) Prod.fst := by
      rcases List.exists_mem_of_ne_nil _ hfil with ⟨p, hp⟩
      rcases List.mem_filter.1 hp with ⟨hpj, hpt⟩
      simp only [groupKeys, List.mem_dedup, List.mem_map]
      exact ⟨p, hpj, by simpa using hpt⟩
    exact ⟨_, List.mem_map_of_mem _ ht, rfl, rfl, rfl⟩
  · intro hnil row hrow hrt
    rcases List.mem_map.1 hrow with ⟨k, hk, hrowk⟩
    have hkt : k = t := by rw [← hrt, ← hrowk]
    subst hkt
    simp only [groupKeys, List.mem_dedup, List.mem_map] at hk
    rcases hk with ⟨p, hpj, hpt⟩
    have hpf : p ∈ (stay_join db).filter (fun q => q.1 = k) :=
      List.mem_filter.2 ⟨hpj, by simpa using hpt⟩
    have : p.2 ∈ stays db k := List.mem_map_of_mem _ hpf
    rw [hnil] at this
    simp at this

/-- C4 (witness): on a database with one suite room booked for three
days, the report contains a suite row whose average is the mean of the
one-element stay list. -/
theorem spec_C4_witness :
    ∃ row ∈ room_types_query c4db, row.roomType = "suite"
      ∧ row.avg_nights = (stays c4db ("suite")).sum / ((stays c4db ("suite")).length : ℚ)
      ∧ row.num_room_bookings = (stays c4db ("suite")).length :=
  (spec_C4 c4db ("suite")).1 (by decide)

/-- C5: the rooms-never-reserved result contains exactly the rooms that
no reservation_room row references — soundly for every database, and
completely for databases whose rooms all reference an existing building
(the report joins through `building`, so the foreign-key integrity the
schema guarantees is what makes every unreserved room reachable). -/
theorem spec_C5 (db : Database) :
    (∀ p ∈ never_reserved_join db, p.2 ∈ db.room
        ∧ ∀ rr ∈ db.reservation_room, rr.roomId ≠ p.2.roomId)
  ∧ ((∀ rm ∈ db.room, ∃ b ∈ db.building, b.buildingId = rm.buildingId) →
      ∀ rm ∈ db.room, (∀ rr ∈ db.reservation_room, rr.roomId ≠ rm.roomId) →
        ∃ p ∈ never_reserved_join db, p.2 = rm) := by
  constructor
  · intro p hp
    rcases List.mem_filter.1 hp with ⟨hmem, hempty⟩
    rcases List.mem_flatMap.1 hmem with ⟨b, _, hpb⟩
    rcases List.mem_map.1 hpb with ⟨rm, hrm, hprm⟩
    have hrm2 : rm ∈ db.room := (List.mem_filter.1 hrm).1
    refine ⟨by rw [← hprm]; exact hrm2, ?_⟩
    intro rr hrr heq
    have hall : ∀ x ∈ db.reservation_room, ¬x.roomId = p.2.roomId := by
      simpa using hempty
    exact hall rr hrr heq
  · intro hFK rm hrm hnone
    obtain ⟨b, hb, hbid⟩ := hFK rm hrm
    refine ⟨(b, rm), List.mem_filter.2 ⟨?_, ?_⟩, rfl⟩
    · exact List.mem_flatMap.2
        ⟨b, hb, List.mem_map.2 ⟨rm, List.mem_filter.2 ⟨hrm, by simp [hbid]⟩, rfl⟩⟩
    · simp only [List.isEmpty_iff, List.filter_eq_nil_iff, decide_eq_true_eq]
      intro rr hrr
      simpa using hnone rr hrr

/-- C5 (witness): with two rooms in one building and only the first ever
reserved, the never-reserved join reaches the second room. -/
theorem spec_C5_witness :
    ∃ p ∈ never_reserved_join c5db, p.2 = c5roomB :=
  (spec_C5 c5db).2 (by decide) c5roomB (by decide) (by decide)

/-- The `available_rooms` summation over the grouped report rows counts
exactly the joined base rows whose status is `available`. -/
theorem available_sum (db : Database) :
    (((room_list_query db).filter fun r => r.room_status = "available").map
        fun r => r.num_rooms).sum
      = ((room_list_join db).filter fun p => p.2.2.status = "available").length := by
  unfold room_list_query
  rw [List.filter_map, List.map_map]
  exact sum_counts_filter (room_list_join db)
    (fun p => (p.1.buildingName, p.2.2.status)) (fun k => k.2 = "available")

/-- C8: with one `room_status` row of status `available` and exactly two
rooms referencing it, each matching exactly one building row, the room
list report derives `available_rooms = 2`. -/
theorem spec_C8 (db : Database) (sid : Nat) (rm1 rm2 : RoomRow)
    (hst : db.room_status = [⟨sid, "available"⟩])
    (hroom : db.room = [rm1, rm2])
    (h1 : rm1.roomStatusId = sid) (h2 : rm2.roomStatusId = sid)
    (hb1 : (db.building.filter fun b => rm1.buildingId = b.buildingId).length = 1)
    (hb2 : (db.building.filter fun b => rm2.buildingId = b.buildingId).length = 1) :
    (employee_room_list_page (room_list_query db)).available_rooms = 2 := by
  have hall : ∀ p ∈ room_list_join db, p.2.2.status = "available" := by
    intro p hp
    rcases List.mem_flatMap.1 hp with ⟨b, _, hp2⟩
    rcases List.mem_flatMap.1 hp2 with ⟨rm, _, hp3⟩
    rcases List.mem_map.1 hp3 with ⟨rs, hrs, hps⟩
    have hrsmem : rs ∈ db.room_status := List.mem_of_mem_filter hrs
    rw [hst] at hrsmem
    have hrseq : rs = ⟨sid, "available"⟩ := by simpa using hrsmem
    rw [← hps, hrseq]
  have hjlen : (room_list_join db).length = 2 := by
    unfold room_list_join
    rw [List.length_flatMap]
    have hpoint : ∀ b ∈ db.building,
        (List.length ∘ fun b =>
            (db.room.filter fun rm => rm.buildingId = b.buildingId).flatMap fun rm =>
              (db.room_status.filter fun rs => rs.roomStatusId = rm.roomStatusId).map fun rs =>
                (b, rm, rs)) b
          = (fun b => (if rm1.buildingId = b.buildingId then 1 else 0)
              + (if rm2.buildingId = b.buildingId then 1 else 0)) b := by
      intro b _
      simp only [Function.comp, hroom, hst]
      by_cases hx1 : rm1.buildingId = b.buildingId <;>
        by_cases hx2 : rm2.buildingId = b.buildingId <;>
          simp [List.filter_cons, hx1, hx2, h1, h2]
    rw [List.map_congr_left hpoint, sum_map_add, sum_map_ite, sum_map_ite, hb1, hb2]
  have hqne : room_list_query db ≠ [] := by
    intro h
    unfold room_list_query at h
    rw [List.map_eq_nil_iff] at h
    unfold groupKeys at h
    rw [List.dedup_eq_nil, List.map_eq_nil_iff] at h
    rw [h] at hjlen
    simp at hjlen
  show (if (room_list_query db).isEmpty then 0
      else (((room_list_query db).filter fun r => r.room_status = "available").map
        fun r => r.num_rooms).sum) = 2
  rw [if_neg (by simpa [List.isEmpty_iff] using hqne), available_sum,
    List.filter_eq_self.2 fun p hp => by simpa using hall p hp]
  exact hjlen

/-- C8 (witness): the spec's example scenario made concrete — one
building, one `available` status row, two rooms referencing it. -/
theorem spec_C8_witness :
    (employee_room_list_page (room_list_query c8db)).available_rooms = 2 :=
  spec_C8 c8db 5 ⟨1, 101, 1, 1, none, 5, 0, 0⟩ ⟨2, 102, 1, 1, none, 5, 0, 0⟩
    rfl rfl rfl rfl (by decide) (by decide)

/-- C9: the `/my_reservations` variant returns at most 10 per-day count
rows (exactly `min 10` the number of distinct days), each of which is a
row of the full per-day grouping; its day window is upward closed (any
day with data later than a returned day is also returned, so the rows are
the latest days); and the `/employee/reservations` variant covers every
calendar day having a reservation, with the correct count per day. -/
theorem spec_C9 (db : Database) :
    (my_reservations_query db).length = min 10 (reservations_per_day db).length
  ∧ (∀ row ∈ my_reservations_query db, row ∈ reservations_per_day db)
  ∧ (∀ row ∈ my_reservations_query db, ∀ d : Nat,
      (∃ r ∈ db.reservation, date r.startDateTime = d) → row.day < d →
        ∃ row2 ∈ my_reservations_query db, row2.day = d)
  ∧ (∀ row ∈ reservations_per_day db,
      row.num_reservations
        = (db.reservation.filter fun r => date r.startDateTime = row.day).length)
  ∧ (∀ d : Nat, (∃ r ∈ db.reservation, date r.startDateTime = d)
      ↔ ∃ row ∈ employee_reservations_query db, row.day = d) := by
  have hperm := List.perm_insertionSort dayGe (reservations_per_day db)
  have hsorted := List.sorted_insertionSort dayGe (reservations_per_day db)
  refine ⟨?_, ?_, ?_, ?_, ?_⟩
  · unfold my_reservations_query
    rw [List.length_take, hperm.length_eq]
  · intro row hrow
    exact hperm.mem_iff.1 (List.mem_of_mem_take hrow)
  · intro row hrow d hd hlt
    have hdkey : d ∈ groupKeys db.reservation fun r => date r.startDateTime := by
      simp only [groupKeys, List.mem_dedup, List.mem_map]
      rcases hd with ⟨r, hr, hrd⟩
      exact ⟨r, hr, hrd⟩
    have hrowd : (⟨d, (db.reservation.filter fun r => date r.startDateTime = d).length⟩
        : DayCountRow) ∈ reservations_per_day db :=
      List.mem_map_of_mem _ hdkey
    have hrowdS : (⟨d, (db.reservation.filter fun r => date r.startDateTime = d).length⟩
        : DayCountRow) ∈ List.insertionSort dayGe (reservations_per_day db) :=
      hperm.mem_iff.2 hrowd
    by_cases hmem : (⟨d, (db.reservation.filter fun r => date r.startDateTime = d).length⟩
        : DayCountRow) ∈ my_reservations_query db
    · exact ⟨_, hmem, rfl⟩
    · exfalso
      have hrow2 : row ∈ (List.insertionSort dayGe (reservations_per_day db)).take 10 := hrow
      have happ : (⟨d, (db.reservation.filter fun r => date r.startDateTime = d).length⟩
          : DayCountRow) ∈ (List.insertionSort dayGe (reservations_per_day db)).take 10
            ++ (List.insertionSort dayGe (reservations_per_day db)).drop 10 := by
        rw [List.take_append_drop]
        exact hrowdS
      rcases List.mem_append.1 happ with h | h
      · exact absurd h hmem
      · have hrel := hsorted.rel_of_mem_take_of_mem_drop hrow2 h
        have hle : d ≤ row.day := hrel
        omega
  · intro row hrow
    rcases List.mem_map.1 hrow with ⟨k, _, hk⟩
    rw [← hk]
  · intro d
    constructor
    · intro hd
      have hdkey : d ∈ groupKeys db.reservation fun r => date r.startDateTime := by
        simp only [groupKeys, List.mem_dedup, List.mem_map]
        rcases hd with ⟨r, hr, hrd⟩
        exact ⟨r, hr, hrd⟩
      exact ⟨_, List.mem_map_of_mem _ hdkey, rfl⟩
    · intro hd
      rcases hd with ⟨row, hrow, hday⟩
      rcases List.mem_map.1 hrow with ⟨k, hkmem, hk⟩
      simp only [groupKeys, List.mem_dedup, List.mem_map] at hkmem
      rcases hkmem with ⟨r, hr, hrd⟩
      refine ⟨r, hr, ?_⟩
      rw [hrd, ← hday, ← hk]

/-- C9 (witness): with reservations on two consecutive days, the earlier
day being listed forces the later day to be listed as well. -/
theorem spec_C9_witness :
    ∃ row2 ∈ my_reservations_query c9db, row2.day = 20240102 :=
  (spec_C9 c9db).2.2.1 ⟨20240101, 1⟩ (by decide) 20240102 (by decide) (by decide)

end HotelLastResort
